import Mathlib

/-!
Verification of the transferdb full-load migration engine (Oracle → MySQL).

The definitions below are a shallow embedding of the Go sources:
  * `src/module/migrate/o2m/full.go` — planner / chunker / orchestrator,
  * `src/database/oracle/full.go`    — source reader and value codec,
together with models of the metadata store (`database/meta`, not part of the
covered files; its operations are modelled from the specification's §4.4 and
§6) and of small string helpers from the `common` package.
-/

namespace TransferDB

/-- Modelled from the spec: `common.StringUPPER` upper-cases a name
("compared upper-cased everywhere"). -/
def stringUPPER (s : String) : String := String.mk (s.data.map Char.toUpper)

/-- Decimal digit run parse (helper for the `strconv` models): accumulates
digits, failing at the first non-digit. -/
def parseNatCore : List Char → Nat → Option Nat
  | [], acc => some acc
  | c :: cs, acc =>
    if c.isDigit then parseNatCore cs (acc * 10 + (c.toNat - 48)) else none

/-- Decimal parse of a non-empty all-digit char list. -/
def parseNatList (l : List Char) : Option Nat :=
  match l with
  | [] => none
  | _ :: _ => parseNatCore l 0

/-- Signed decimal parse of a char list. -/
def parseIntList (l : List Char) : Option Int :=
  match l with
  | '-' :: rest => (parseNatList rest).map (fun n => -(n : Int))
  | _ => (parseNatList l).map (fun n => (n : Int))

/-- Task status literal `WAITING` (spec §6: status values are literal strings). -/
def taskStatusWaiting : String := "WAITING"

/-- Task status literal `RUNNING`. -/
def taskStatusRunning : String := "RUNNING"

/-- Task status literal `SUCCESS`. -/
def taskStatusSuccess : String := "SUCCESS"

/-- Task status literal `FAILED`. -/
def taskStatusFailed : String := "FAILED"

/-- Modelled from the spec: `common.TaskTableDefaultSourceGlobalSCN`, the
default snapshot sentinel stamped on a never-chunked WaitSync row. -/
def taskTableDefaultSourceGlobalSCN : Nat := 0

/-- Modelled from the spec: `common.TaskTableDefaultSplitChunkNums`, the
default chunk-total sentinel of a never-chunked WaitSync row. -/
def taskTableDefaultSplitChunkNums : Int := 0

/-- `p.toList` is a prefix of `l` (helper for `containsSubstr`). -/
def isPrefixOfList : List Char → List Char → Bool
  | [], _ => true
  | _ :: _, [] => false
  | p :: ps, c :: cs => p == c && isPrefixOfList ps cs

/-- Substring containment on char lists (helper for `containsSubstr`). -/
def containsSubList : List Char → List Char → Bool
  | pat, [] => isPrefixOfList pat []
  | pat, c :: cs => isPrefixOfList pat (c :: cs) || containsSubList pat cs

/-- Go's `strings.Contains s pat`. -/
def containsSubstr (s pat : String) : Bool :=
  containsSubList pat.data s.data

/-- A row of Oracle's column-metadata query as used by
`Migrate.adjustTableSelectColumn`: the `COLUMN_NAME`, `DATA_TYPE` and
`DATA_SCALE` entries of the `map[string]string`. -/
structure OraColumnInfo where
  columnName : String
  dataType : String
  dataScale : String
deriving DecidableEq

/-- The per-column projection fragment of `Migrate.adjustTableSelectColumn`
(src/module/migrate/o2m/full.go:818-858), including the literal condition
`dataScale < 0 && dataScale <= 6` of line 848. -/
def adjustColumnProjection (rowCol : OraColumnInfo) : Except String String :=
  match stringUPPER rowCol.dataType with
  | "NUMBER" => Except.ok rowCol.columnName
  | "DECIMAL" | "DEC" | "DOUBLE PRECISION" | "FLOAT" | "INTEGER" | "INT"
  | "REAL" | "NUMERIC" | "BINARY_FLOAT" | "BINARY_DOUBLE" | "SMALLINT" =>
      Except.ok rowCol.columnName
  | "BFILE" | "CHARACTER" | "LONG" | "NCHAR VARYING" | "ROWID" | "UROWID"
  | "VARCHAR" | "CHAR" | "NCHAR" | "NVARCHAR2" | "NCLOB" | "CLOB" =>
      Except.ok rowCol.columnName
  | "XMLTYPE" =>
      Except.ok (" XMLSERIALIZE(CONTENT " ++ rowCol.columnName ++ " AS CLOB) AS "
        ++ rowCol.columnName)
  | "BLOB" | "LONG RAW" | "RAW" => Except.ok rowCol.columnName
  | "DATE" =>
      Except.ok ("TO_CHAR(" ++ rowCol.columnName ++ ",'yyyy-MM-dd HH24:mi:ss') AS "
        ++ rowCol.columnName)
  | _ =>
      if containsSubstr rowCol.dataType "INTERVAL" then
        Except.ok ("TO_CHAR(" ++ rowCol.columnName ++ ") AS " ++ rowCol.columnName)
      else if containsSubstr rowCol.dataType "TIMESTAMP" then
        match parseIntList rowCol.dataScale.data with
        | none => Except.error ("aujust oracle timestamp datatype scale ["
            ++ rowCol.dataScale ++ "] strconv.Atoi failed")
        | some dataScale =>
          if dataScale = 0 then
            Except.ok ("TO_CHAR(" ++ rowCol.columnName
              ++ ",'yyyy-mm-dd hh24:mi:ss') AS " ++ rowCol.columnName)
          else if dataScale < 0 ∧ dataScale ≤ 6 then
            Except.ok ("TO_CHAR(" ++ rowCol.columnName ++ ",'yyyy-mm-dd hh24:mi:ss.ff"
              ++ rowCol.dataScale ++ "') AS " ++ rowCol.columnName)
          else
            Except.ok ("TO_CHAR(" ++ rowCol.columnName
              ++ ",'yyyy-mm-dd hh24:mi:ss.ff6') AS " ++ rowCol.columnName)
      else
        Except.ok rowCol.columnName

/-- `Migrate.adjustTableSelectColumn`: builds the SELECT projection by mapping
`adjustColumnProjection` over the column metadata and joining with `,`. -/
def adjustTableSelectColumn (columnsINFO : List OraColumnInfo) : Except String String := do
  let columnNames : List String ← columnsINFO.mapM adjustColumnProjection
  Except.ok (String.intercalate "," columnNames)

/-- The batch-accumulation loop of `Oracle.GetOracleTableRowsData`
(src/database/oracle/full.go:228-248): `rowsTMP` collects row tuples and is
flushed into a batch whenever its length equals `insertBatchSize` (a Go
`int`, so possibly ≤ 0); a non-empty remainder is flushed at the end. -/
def batchRowsLoop (insertBatchSize : Int) : List String → List String → List (List String)
  | [], rowsTMP => if rowsTMP.length > 0 then [rowsTMP] else []
  | r :: rest, rowsTMP =>
    let tmp := rowsTMP ++ [r]
    if (tmp.length : Int) = insertBatchSize then
      tmp :: batchRowsLoop insertBatchSize rest []
    else
      batchRowsLoop insertBatchSize rest tmp

/-- The batches of row tuples produced by `Oracle.GetOracleTableRowsData` for a
scanned row list (each batch is joined with `,` before being returned). -/
def gatherRowBatches (insertBatchSize : Int) (rows : List String) : List (List String) :=
  batchRowsLoop insertBatchSize rows []

/-- The `batchResults` strings of `Oracle.GetOracleTableRowsData`: each batch
of row tuples joined by `,` (`exstrings.Join(rowsTMP, ",")`). -/
def getOracleTableRowsDataBatches (insertBatchSize : Int) (rows : List String) : List String :=
  (gatherRowBatches insertBatchSize rows).map (String.intercalate ",")

/-- Modelled from the spec: `common.StrconvUintBitSize`, the unsigned decimal
parse used on query results. -/
def strconvUintBitSize (s : String) : Option Nat := parseNatList s.data

/-- `Oracle.GetOracleCurrentSnapshotSCN` (src/database/oracle/full.go:26-38):
the query outcome is `queryErr` and the row list `res`; the code indexes
`res[0]` with no emptiness check, so a zero-row result has no defined value
(`none` models the out-of-bounds access) instead of an error value. -/
def getOracleCurrentSnapshotSCN (queryErr : Option String) (res : List (String → String)) :
    Option (Except String Nat) :=
  match queryErr with
  | some e => some (Except.error e)
  | none =>
    match res.head? with
    | none => none
    | some row =>
      match strconvUintBitSize (row "CURRENT_SCN") with
      | none => some (Except.error ("get oracle current snapshot scn "
          ++ row "CURRENT_SCN" ++ " utils.StrconvUintBitSize failed"))
      | some v => some (Except.ok v)

/-- `Oracle.CloseOracleChunkTask` acting on the set of existing
`DBMS_PARALLEL_EXECUTE` task names: `DROP_TASK` removes the task. -/
def closeOracleChunkTask (tasks : List String) (taskName : String) : List String :=
  tasks.filter (fun x => x != taskName)

/-- `Oracle.StartOracleChunkCreateTask` (src/database/oracle/full.go:40-61) on
the driver-reported row list of its `COUNT(1)` query: `res[0]["COUNT"]` is read
with no emptiness check (`none` models the out-of-bounds access); when the
count is not the string `"0"` the task is dropped first, then created. -/
def startOracleChunkCreateTaskRes (queryErr : Option String) (res : List (String → String))
    (tasks : List String) (taskName : String) : Option (Except String (List String)) :=
  match queryErr with
  | some e => some (Except.error e)
  | none =>
    match res.head? with
    | none => none
    | some row =>
      let tasks1 := if row "COUNT" != "0" then closeOracleChunkTask tasks taskName else tasks
      some (Except.ok (tasks1 ++ [taskName]))

/-- A `DBMS_PARALLEL_EXECUTE` task as the chunker sees it: its name, and its
chunk rows in `user_parallel_execute_chunks`. -/
structure OraTask where
  taskName : String
  chunks : List String
deriving DecidableEq

/-- The `SELECT COUNT(1) FROM user_parallel_execute_chunks WHERE TASK_NAME = …`
query of `Oracle.StartOracleChunkCreateTask` (src/database/oracle/full.go:41):
it counts the task's chunk rows — not whether the task exists. -/
def userParallelExecuteChunksCount (tasks : List OraTask) (taskName : String) : Nat :=
  ((tasks.filter (fun tk => tk.taskName == taskName)).map
    (fun tk => tk.chunks.length)).sum

/-- `Oracle.CloseOracleChunkTask` on the task state: `DROP_TASK` removes the
task and with it its chunk rows. -/
def dropOracleChunkTask (tasks : List OraTask) (taskName : String) : List OraTask :=
  tasks.filter (fun tk => tk.taskName != taskName)

/-- Modelled from the spec: `DBMS_PARALLEL_EXECUTE.CREATE_TASK` registers a
new task with no chunk rows and fails on a duplicate task name — the reason
the spec demands "if `task_name` already exists, drop it first". -/
def createOracleTask (tasks : List OraTask) (taskName : String) :
    Except String (List OraTask) :=
  if tasks.any (fun tk => tk.taskName == taskName) then
    Except.error ("oracle DBMS_PARALLEL_EXECUTE create task failed: task already exists: "
      ++ taskName)
  else
    Except.ok (tasks ++ [{ taskName := taskName, chunks := [] }])

/-- `Oracle.StartOracleChunkCreateTask` (src/database/oracle/full.go:40-61) on
the task state: the pre-drop fires only when the `COUNT(1)` of the task's
chunk rows differs from `"0"`, and then the task is created. A leftover task
with zero chunk rows is therefore not dropped, and the creation step fails
on it. -/
def startOracleChunkCreateTask (tasks : List OraTask) (taskName : String) :
    Except String (List OraTask) :=
  let tasks1 := if userParallelExecuteChunksCount tasks taskName ≠ 0 then
      dropOracleChunkTask tasks taskName
    else tasks
  createOracleTask tasks1 taskName

/-- `Oracle.StartOracleCreateChunkByRowID`: `CREATE_CHUNKS_BY_ROWID` populates
the task's chunk rows with the predicates the split produces (`chunkRes`). -/
def startOracleCreateChunkByRowID (tasks : List OraTask) (taskName : String)
    (chunkRes : List String) : List OraTask :=
  tasks.map (fun tk =>
    if tk.taskName == taskName then { tk with chunks := chunkRes } else tk)

/-- A `wait_sync_meta` row. Modelled from the spec: §6 gives the logical
schema (key `(db_kind_s, db_kind_t, schema_s, table_s, task_mode)` plus
`task_status, snapshot_id, chunk_total, chunk_success, chunk_failed,
is_partition`); the `database/meta` package is not among the covered files.
Unset fields keep Go's zero values. -/
structure WaitSyncMeta where
  dbTypeS : String := ""
  dbTypeT : String := ""
  schemaNameS : String := ""
  tableNameS : String := ""
  taskMode : String := ""
  taskStatus : String := ""
  globalScnS : Nat := 0
  chunkTotalNums : Int := 0
  chunkSuccessNums : Int := 0
  chunkFailedNums : Int := 0
  isPartition : String := ""
deriving DecidableEq

/-- A `full_sync_meta` row. Modelled from the spec: §6 gives the logical
schema (key `(db_kind_s, db_kind_t, schema_s, table_s, task_mode,
chunk_predicate)` plus `schema_t, table_t, snapshot_id, column_projection,
task_status, info_detail, error_detail, is_partition`). -/
structure FullSyncMeta where
  dbTypeS : String := ""
  dbTypeT : String := ""
  schemaNameS : String := ""
  tableNameS : String := ""
  schemaNameT : String := ""
  tableNameT : String := ""
  globalScnS : Nat := 0
  columnDetailS : String := ""
  chunkDetailS : String := ""
  taskMode : String := ""
  taskStatus : String := ""
  infoDetail : String := ""
  errorDetail : String := ""
  isPartition : String := ""
deriving DecidableEq

/-- The metadata store plus the destination's truncation history: the two
metadata tables of spec §6 and, for the frame conditions of the planner
claims, the `(schema_t, table)` pairs passed to `Mysql.TruncateMySQLTable`. -/
structure MetaState where
  waitRows : List WaitSyncMeta := []
  fullRows : List FullSyncMeta := []
  truncated : List (String × String) := []
deriving DecidableEq

/-- The schema-level key fields of a WaitSync query match. -/
def waitSchemaMatches (w : WaitSyncMeta) (dbS dbT schema mode : String) : Bool :=
  w.dbTypeS == dbS && w.dbTypeT == dbT && w.schemaNameS == schema && w.taskMode == mode

/-- The full key fields of a WaitSync row match. -/
def waitKeyMatches (w : WaitSyncMeta) (dbS dbT schema table mode : String) : Bool :=
  waitSchemaMatches w dbS dbT schema mode && w.tableNameS == table

/-- The schema-level key fields of a FullSync query match. -/
def fullSchemaMatches (f : FullSyncMeta) (dbS dbT schema mode : String) : Bool :=
  f.dbTypeS == dbS && f.dbTypeT == dbT && f.schemaNameS == schema && f.taskMode == mode

/-- The per-table key fields of a FullSync query match. -/
def fullTableMatches (f : FullSyncMeta) (dbS dbT schema table mode : String) : Bool :=
  fullSchemaMatches f dbS dbT schema mode && f.tableNameS == table

/-- Modelled from the spec: `WaitSyncMetaModel.DetailWaitSyncMetaSuccessTables`
returns the table names of the schema/task-mode rows in the given status. -/
def detailWaitSyncMetaSuccessTables (st : MetaState) (dbS dbT schema mode status : String) :
    List String :=
  ((st.waitRows.filter (fun w => waitSchemaMatches w dbS dbT schema mode
      && w.taskStatus == status)).map (fun w => w.tableNameS))

/-- Modelled from the spec: `WaitSyncMetaModel.DeleteWaitSyncMetaSuccessTables`
deletes the schema/task-mode rows in the given status whose table is in
`tables` (spec §4.5 step 3: "Tables in prior_success − exporters are deleted"). -/
def deleteWaitSyncMetaSuccessTables (st : MetaState) (dbS dbT schema mode status : String)
    (tables : List String) : MetaState :=
  { st with waitRows := st.waitRows.filter (fun w =>
      !(waitSchemaMatches w dbS dbT schema mode && w.taskStatus == status
        && tables.contains w.tableNameS)) }

/-- Modelled from the spec: `WaitSyncMetaModel.CountsErrWaitSyncMetaBySchema`,
"a WaitSync error-count query that returns all FAILED records in a schema". -/
def countsErrWaitSyncMetaBySchema (st : MetaState) (dbS dbT schema mode status : String) : Int :=
  ((st.waitRows.filter (fun w => waitSchemaMatches w dbS dbT schema mode
      && w.taskStatus == status)).length : Int)

/-- Modelled from the spec: `WaitSyncMetaModel.DetailWaitSyncMeta` filtered by
the full table key (the call sites that set only the key fields). -/
def detailWaitSyncMetaByTable (st : MetaState) (dbS dbT schema table mode : String) :
    List WaitSyncMeta :=
  st.waitRows.filter (fun w => waitKeyMatches w dbS dbT schema table mode)

/-- Modelled from the spec: `WaitSyncMetaModel.DetailWaitSyncMeta` filtered by
schema, task-mode and status (the success/failed tally call sites). -/
def detailWaitSyncMetaByStatus (st : MetaState) (dbS dbT schema mode status : String) :
    List WaitSyncMeta :=
  st.waitRows.filter (fun w => waitSchemaMatches w dbS dbT schema mode
    && w.taskStatus == status)

/-- Modelled from the spec: `WaitSyncMetaModel.DetailWaitSyncMeta` at
src/module/migrate/o2m/full.go:225-233: WAITING rows with the default snapshot
and chunk-total sentinels ("never chunked before", spec §4.5 step 7). -/
def detailWaitSyncMetaWaitingDefault (st : MetaState) (dbS dbT schema mode status : String)
    (scn : Nat) (chunkTotal : Int) : List WaitSyncMeta :=
  st.waitRows.filter (fun w => waitSchemaMatches w dbS dbT schema mode
    && w.taskStatus == status && w.globalScnS == scn && w.chunkTotalNums == chunkTotal)

/-- Modelled from the spec: `WaitSyncMetaModel.CreateWaitSyncMeta` inserts the
given record. -/
def createWaitSyncMeta (st : MetaState) (w : WaitSyncMeta) : MetaState :=
  { st with waitRows := st.waitRows ++ [w] }

/-- Modelled from the spec: `WaitSyncMetaModel.DeleteWaitSyncMeta` deletes the
rows matching the given table key. -/
def deleteWaitSyncMeta (st : MetaState) (dbS dbT schema table mode : String) : MetaState :=
  { st with waitRows := st.waitRows.filter (fun w =>
      !(waitKeyMatches w dbS dbT schema table mode)) }

/-- Modelled from the spec: `FullSyncMetaModel.DeleteFullSyncMetaBySchemaSyncMode`
deletes every FullSync row of the schema/task-mode. -/
def deleteFullSyncMetaBySchemaSyncMode (st : MetaState) (dbS dbT schema mode : String) :
    MetaState :=
  { st with fullRows := st.fullRows.filter (fun f =>
      !(fullSchemaMatches f dbS dbT schema mode)) }

/-- `Mysql.TruncateMySQLTable` recorded on the destination side. -/
def truncateMySQLTable (st : MetaState) (schemaT table : String) : MetaState :=
  { st with truncated := st.truncated ++ [(schemaT, table)] }

/-- The field patch of a `WaitSyncMetaModel.UpdateWaitSyncMeta` call: the keys
present in the Go `map[string]interface` argument. -/
structure WaitSyncPatch where
  taskStatus : Option String := none
  globalScnS : Option Nat := none
  chunkTotalNums : Option Int := none
  chunkSuccessNums : Option Int := none
  chunkFailedNums : Option Int := none
  isPartition : Option String := none
deriving DecidableEq

/-- Apply a `WaitSyncPatch` to one row. -/
def applyWaitPatch (p : WaitSyncPatch) (w : WaitSyncMeta) : WaitSyncMeta :=
  { w with
    taskStatus := p.taskStatus.getD w.taskStatus
    globalScnS := p.globalScnS.getD w.globalScnS
    chunkTotalNums := p.chunkTotalNums.getD w.chunkTotalNums
    chunkSuccessNums := p.chunkSuccessNums.getD w.chunkSuccessNums
    chunkFailedNums := p.chunkFailedNums.getD w.chunkFailedNums
    isPartition := p.isPartition.getD w.isPartition }

/-- Modelled from the spec: `WaitSyncMetaModel.UpdateWaitSyncMeta` patches the
rows matching the given table key. -/
def updateWaitSyncMeta (st : MetaState) (dbS dbT schema table mode : String)
    (p : WaitSyncPatch) : MetaState :=
  { st with waitRows := st.waitRows.map (fun w =>
      if waitKeyMatches w dbS dbT schema table mode then applyWaitPatch p w else w) }

/-- Modelled from the spec: `FullSyncMetaModel.DetailFullSyncMeta` filtered by
table key and status (the WAITING-chunk load of the orchestrator). -/
def detailFullSyncMetaByStatus (st : MetaState) (dbS dbT schema table mode status : String) :
    List FullSyncMeta :=
  st.fullRows.filter (fun f => fullTableMatches f dbS dbT schema table mode
    && f.taskStatus == status)

/-- Modelled from the spec: `FullSyncMetaModel.CountsErrorFullSyncMeta` counts
the table's FullSync rows in the given status. -/
def countsErrorFullSyncMeta (st : MetaState) (dbS dbT schema table mode status : String) : Int :=
  ((st.fullRows.filter (fun f => fullTableMatches f dbS dbT schema table mode
      && f.taskStatus == status)).length : Int)

/-- Modelled from the spec: the atomic `delete_chunks_and_update_table`
compound operation (§4.4 item 2): delete the table's FullSync rows and patch
its WaitSync row in one transaction. -/
def deleteTableFullSyncMetaAndUpdateWaitSyncMeta (st : MetaState)
    (dbS dbT schema table mode : String) (p : WaitSyncPatch) : MetaState :=
  let st1 := { st with fullRows := st.fullRows.filter (fun f =>
      !(fullTableMatches f dbS dbT schema table mode)) }
  updateWaitSyncMeta st1 dbS dbT schema table mode p

/-- Modelled from the spec: the atomic `create_chunks_and_update_table`
compound operation (§4.4 item 1): insert the FullSync rows and patch the
table's WaitSync row in one transaction. -/
def createFullSyncMetaAndUpdateWaitSyncMeta (st : MetaState) (rows : List FullSyncMeta)
    (dbS dbT schema table mode : String) (p : WaitSyncPatch) : MetaState :=
  let st1 := { st with fullRows := st.fullRows ++ rows }
  updateWaitSyncMeta st1 dbS dbT schema table mode p

/-- The fixed configuration strings a full-load run reads
(`r.Cfg.DBTypeS/DBTypeT`, the Oracle and MySQL schema names, `TaskMode`). -/
structure FullCfg where
  dbTypeS : String
  dbTypeT : String
  schemaNameS : String
  schemaNameT : String
  taskMode : String
deriving DecidableEq

/-- The task name `<SCHEMA>_<TABLE>_TASK<workerID>` built at
src/module/migrate/o2m/full.go:666. -/
def chunkTaskName (cfg : FullCfg) (t : String) (workerID : Nat) : String :=
  stringUPPER cfg.schemaNameS ++ "_" ++ stringUPPER t ++ "_" ++ "TASK" ++ toString workerID

/-- The single `1 = 1` FullSync row inserted for a table whose statistics (or
row-id chunking) report no rows (src/module/migrate/o2m/full.go:630-654 and
690-714). -/
def fullSyncMetaWholeTable (cfg : FullCfg) (t targetTableName sourceColumnInfo : String)
    (globalSCN : Nat) (isPartition : String) : FullSyncMeta :=
  { dbTypeS := cfg.dbTypeS
    dbTypeT := cfg.dbTypeT
    schemaNameS := stringUPPER cfg.schemaNameS
    tableNameS := stringUPPER t
    schemaNameT := stringUPPER cfg.schemaNameT
    tableNameT := stringUPPER targetTableName
    globalScnS := globalSCN
    columnDetailS := sourceColumnInfo
    chunkDetailS := "1 = 1"
    taskMode := cfg.taskMode
    taskStatus := taskStatusWaiting
    isPartition := isPartition }

/-- One FullSync row per row-id chunk predicate
(src/module/migrate/o2m/full.go:722-738). -/
def fullSyncMetaOfChunk (cfg : FullCfg) (t targetTableName sourceColumnInfo : String)
    (globalSCN : Nat) (isPartition chunkCMD : String) : FullSyncMeta :=
  { dbTypeS := cfg.dbTypeS
    dbTypeT := cfg.dbTypeT
    schemaNameS := stringUPPER cfg.schemaNameS
    tableNameS := stringUPPER t
    schemaNameT := stringUPPER cfg.schemaNameT
    tableNameT := stringUPPER targetTableName
    globalScnS := globalSCN
    columnDetailS := sourceColumnInfo
    chunkDetailS := chunkCMD
    taskMode := cfg.taskMode
    taskStatus := taskStatusWaiting
    isPartition := isPartition }

/-- What one `initWaitSyncTableRowID` worker produces for its table: the
FullSync rows it records, the WaitSync patch it applies, and the
`DBMS_PARALLEL_EXECUTE` task set it leaves behind. -/
structure InitTableResult where
  fullRowsCreated : List FullSyncMeta
  waitPatch : WaitSyncPatch
  tasks : List String
deriving DecidableEq

/-- One worker of `Migrate.initWaitSyncTableRowID`
(src/module/migrate/o2m/full.go:590-774) for table `t`: resolve the target
name from the rule map (default upper-case), stamp `is_partition`, and
  * statistics rows = 0 → one `1 = 1` row, `chunk_total = 1`, no task touched;
  * otherwise record the chunk task's name — the name-level bookkeeping;
    `initWaitSyncTableRowIDTaskState` below carries the chunk-level task
    lifecycle — and split by row id; an empty chunk list → one `1 = 1` row and
    the worker returns with the task still in place (no `CloseOracleChunkTask`
    on that path); a non-empty list → one WAITING row per chunk, the WaitSync
    patched with the snapshot and `chunk_total = len(chunks)`, and the task
    dropped.
`globalSCN` is the snapshot captured once before the workers start
(src/module/migrate/o2m/full.go:578); `chunkRes` is the predicate list the
row-id query returned. -/
def initWaitSyncTableWorker (cfg : FullCfg) (tableNameRule : List (String × String))
    (globalSCN : Nat) (partitionTables : List String) (t : String) (workerID : Nat)
    (sourceColumnInfo : String) (tableRowsByStatistics : Nat) (chunkRes : List String)
    (tasks : List String) : InitTableResult :=
  let targetTableName :=
    match tableNameRule.lookup (stringUPPER t) with
    | some val => val
    | none => stringUPPER t
  let isPartition := if partitionTables.contains (stringUPPER t) then "YES" else "NO"
  let smallTablePatch : WaitSyncPatch :=
    { globalScnS := some globalSCN
      chunkTotalNums := some 1
      chunkSuccessNums := some 0
      chunkFailedNums := some 0
      isPartition := some isPartition }
  if tableRowsByStatistics = 0 then
    { fullRowsCreated := [fullSyncMetaWholeTable cfg t targetTableName sourceColumnInfo
        globalSCN isPartition]
      waitPatch := smallTablePatch
      tasks := tasks }
  else
    let taskName := chunkTaskName cfg t workerID
    let tasks1 := (if tasks.count taskName ≠ 0 then closeOracleChunkTask tasks taskName
      else tasks) ++ [taskName]
    if chunkRes.isEmpty then
      { fullRowsCreated := [fullSyncMetaWholeTable cfg t targetTableName sourceColumnInfo
          globalSCN isPartition]
        waitPatch := smallTablePatch
        tasks := tasks1 }
    else
      { fullRowsCreated := chunkRes.map (fun cmd =>
          fullSyncMetaOfChunk cfg t targetTableName sourceColumnInfo globalSCN
            isPartition cmd)
        waitPatch :=
          { globalScnS := some globalSCN
            chunkTotalNums := some (chunkRes.length : Int)
            chunkSuccessNums := some 0
            chunkFailedNums := some 0
            isPartition := some isPartition }
        tasks := closeOracleChunkTask tasks1 taskName }

/-- The `DBMS_PARALLEL_EXECUTE` task lifecycle of one `initWaitSyncTableRowID`
worker (src/module/migrate/o2m/full.go:617-766) on the chunk-level task
state: no task is touched when the statistics report zero rows; otherwise the
task is started (`StartOracleChunkCreateTask`: the chunk-count-conditioned
pre-drop, then `CREATE_TASK`) and its chunks generated; the task is dropped
only on the branch whose chunk list is non-empty — the empty-chunk branch
returns at line 719 without reaching the `CloseOracleChunkTask` call at
line 764. -/
def initWaitSyncTableRowIDTaskState (cfg : FullCfg) (t : String) (workerID : Nat)
    (tableRowsByStatistics : Nat) (chunkRes : List String) (tasks : List OraTask) :
    Except String (List OraTask) :=
  if tableRowsByStatistics = 0 then Except.ok tasks
  else
    let taskName := chunkTaskName cfg t workerID
    match startOracleChunkCreateTask tasks taskName with
    | Except.error e => Except.error e
    | Except.ok tasks1 =>
      let tasks2 := startOracleCreateChunkByRowID tasks1 taskName chunkRes
      if chunkRes.isEmpty then Except.ok tasks2
      else Except.ok (dropOracleChunkTask tasks2 taskName)

/-- Modelled from the spec: `FullSyncMeta.String()`, "a stringification of the
chunk key/description" written into `info_detail`. -/
def fullSyncMetaString (m : FullSyncMeta) : String :=
  "[" ++ m.schemaNameS ++ "." ++ m.tableNameS ++ " -> " ++ m.schemaNameT ++ "."
    ++ m.tableNameT ++ " where " ++ m.chunkDetailS ++ "]"

/-- One inner-group chunk worker of `Migrate.fullPartSyncTable`
(src/module/migrate/o2m/full.go:392-471): the first failing stage among
`IExtractor`, `ITranslator` and `IApplier` is recorded in the chunk's own
FullSync row as FAILED with `info_detail = m.String()` and `error_detail` the
stage's error, and the worker returns success (the error is swallowed); the
worker returns an error — failing the inner group — only when the metadata
write itself (modelled by `updateErr`) fails. On the all-stages-success path
the row is set to SUCCESS, again erroring only if that write fails. The
result is the chunk's row after the worker plus the worker's return value. -/
def chunkWorkerStep (m : FullSyncMeta) (extractErr translateErr applyErr : Option String)
    (updateErr : Option String) : FullSyncMeta × Except String Unit :=
  let recordFailed := fun (e : String) (stage : String) =>
    match updateErr with
    | some werr => (m, Except.error ("get oracle schema table [" ++ fullSyncMetaString m
        ++ "] " ++ stage ++ " failed: " ++ werr))
    | none =>
      ({ m with
          taskStatus := taskStatusFailed
          infoDetail := fullSyncMetaString m
          errorDetail := e },
       Except.ok ())
  match extractErr with
  | some e => recordFailed e "IExtractor"
  | none =>
    match translateErr with
    | some e => recordFailed e "ITranslator"
    | none =>
      match applyErr with
      | some e => recordFailed e "IApplier"
      | none =>
        match updateErr with
        | some werr => (m, Except.error ("get oracle schema table ["
            ++ fullSyncMetaString m ++ "] Success failed: " ++ werr))
        | none => ({ m with taskStatus := taskStatusSuccess }, Except.ok ())

/-- The metadata state after one table's inner chunk group of
`Migrate.fullPartSyncTable` has run: the WaitSync row is first set to RUNNING
(src/module/migrate/o2m/full.go:365-373, note the raw — not upper-cased —
schema name of that call), then every WAITING FullSync row of the table ends
SUCCESS or FAILED according to `outcome`, a FAILED row carrying
`info_detail = m.String()` and `error_detail = errDetail m` as recorded by
`chunkWorkerStep`. -/
def chunkRunState (st : MetaState) (cfg : FullCfg) (t : String)
    (outcome : FullSyncMeta → Bool) (errDetail : FullSyncMeta → String) : MetaState :=
  let st1 := updateWaitSyncMeta st cfg.dbTypeS cfg.dbTypeT cfg.schemaNameS
    (stringUPPER t) cfg.taskMode { taskStatus := some taskStatusRunning }
  { st1 with fullRows := st1.fullRows.map (fun f =>
      if fullTableMatches f cfg.dbTypeS cfg.dbTypeT (stringUPPER cfg.schemaNameS)
          (stringUPPER t) cfg.taskMode && f.taskStatus == taskStatusWaiting then
        if outcome f then { f with taskStatus := taskStatusSuccess }
        else
          { f with
              taskStatus := taskStatusFailed
              infoDetail := fullSyncMetaString f
              errorDetail := errDetail f }
      else f) }

/-- One table's run of `Migrate.fullPartSyncTable`
(src/module/migrate/o2m/full.go:361-542): set RUNNING, load the WAITING
FullSync rows (`fullMetas`), run the chunks, count the table's FAILED rows
(`totalErrs`); `totalErrs = 0` → atomically delete the table's FullSync rows
and patch the WaitSync to SUCCESS with `chunk_success = len(fullMetas)` and
`chunk_failed = 0`; otherwise patch the WaitSync to FAILED with
`chunk_success = len(fullMetas) - totalErrs` and `chunk_failed = totalErrs`,
keeping the FullSync rows. -/
def fullPartSyncTableStep (st : MetaState) (cfg : FullCfg) (t : String)
    (outcome : FullSyncMeta → Bool) (errDetail : FullSyncMeta → String) : MetaState :=
  let fullMetas := detailFullSyncMetaByStatus
    (updateWaitSyncMeta st cfg.dbTypeS cfg.dbTypeT cfg.schemaNameS (stringUPPER t)
      cfg.taskMode { taskStatus := some taskStatusRunning })
    cfg.dbTypeS cfg.dbTypeT (stringUPPER cfg.schemaNameS) (stringUPPER t)
    cfg.taskMode taskStatusWaiting
  let st2 := chunkRunState st cfg t outcome errDetail
  let totalErrs := countsErrorFullSyncMeta st2 cfg.dbTypeS cfg.dbTypeT
    (stringUPPER cfg.schemaNameS) (stringUPPER t) cfg.taskMode taskStatusFailed
  if totalErrs = 0 then
    deleteTableFullSyncMetaAndUpdateWaitSyncMeta st2 cfg.dbTypeS cfg.dbTypeT
      (stringUPPER cfg.schemaNameS) (stringUPPER t) cfg.taskMode
      { taskStatus := some taskStatusSuccess,
        chunkSuccessNums := some (fullMetas.length : Int),
        chunkFailedNums := some 0 }
  else
    updateWaitSyncMeta st2 cfg.dbTypeS cfg.dbTypeT (stringUPPER cfg.schemaNameS)
      (stringUPPER t) cfg.taskMode
      { taskStatus := some taskStatusFailed,
        chunkSuccessNums := some ((fullMetas.length : Int) - totalErrs),
        chunkFailedNums := some totalErrs }

/-- Modelled from the spec: `common.FilterDifferenceStringItems` — the items of
the first list absent from the second (spec §4.5 step 3,
"prior_success − exporters"). -/
def filterDifferenceStringItems (a b : List String) : List String :=
  a.filter (fun x => !(b.contains x))

/-- The prelude of `Migrate.Full` (src/module/migrate/o2m/full.go:88-242):
clear the SUCCESS rows of tables no longer configured, then the FAILED gate,
then record missing WaitSync rows for the exporters (status WAITING with the
default sentinels), then — when checkpointing is off — delete the
schema/task-mode FullSync rows and, per exporter, delete its WaitSync row,
truncate the destination table and re-insert a WaitSync record (the Go struct
literal at lines 203-211 omits `TaskStatus`, so the re-inserted row carries
the zero value `""`); finally the `wait_sync_meta` WAITING/default query whose
upper-cased table names become `waitSyncTables`. The result pairs the final
metadata state with the gate error or that table list. -/
def fullPrelude (st : MetaState) (cfg : FullCfg) (exporters : List String)
    (enableCheckpoint : Bool) : MetaState × Except String (List String) :=
  let tablesByMeta := detailWaitSyncMetaSuccessTables st cfg.dbTypeS cfg.dbTypeT
    (stringUPPER cfg.schemaNameS) cfg.taskMode taskStatusSuccess
  let clearTables := filterDifferenceStringItems tablesByMeta exporters
  let st1 := if clearTables.length > 0 then
      deleteWaitSyncMetaSuccessTables st cfg.dbTypeS cfg.dbTypeT
        (stringUPPER cfg.schemaNameS) cfg.taskMode taskStatusSuccess clearTables
    else st
  let errTotals := countsErrWaitSyncMetaBySchema st1 cfg.dbTypeS cfg.dbTypeT
    (stringUPPER cfg.schemaNameS) cfg.taskMode taskStatusFailed
  if errTotals > 0 then
    (st1, Except.error ("csv schema [" ++ stringUPPER cfg.schemaNameS ++ "] mode ["
      ++ cfg.taskMode ++ "] table task failed: meta table [wait_sync_meta] exist"
      ++ " failed error"))
  else
    let st2 := exporters.foldl (fun acc tableName =>
      if (detailWaitSyncMetaByTable acc cfg.dbTypeS cfg.dbTypeT
          (stringUPPER cfg.schemaNameS) tableName cfg.taskMode).isEmpty then
        createWaitSyncMeta acc
          { dbTypeS := cfg.dbTypeS, dbTypeT := cfg.dbTypeT,
            schemaNameS := stringUPPER cfg.schemaNameS,
            tableNameS := stringUPPER tableName, taskMode := cfg.taskMode,
            taskStatus := taskStatusWaiting,
            globalScnS := taskTableDefaultSourceGlobalSCN,
            chunkTotalNums := taskTableDefaultSplitChunkNums }
      else acc) st1
    let st3 := if !enableCheckpoint then
        let sa := deleteFullSyncMetaBySchemaSyncMode st2 cfg.dbTypeS cfg.dbTypeT
          cfg.schemaNameS cfg.taskMode
        exporters.foldl (fun acc tableName =>
          let a1 := deleteWaitSyncMeta acc cfg.dbTypeS cfg.dbTypeT cfg.schemaNameS
            tableName cfg.taskMode
          let a2 := truncateMySQLTable a1 cfg.schemaNameT tableName
          if (detailWaitSyncMetaByTable a2 cfg.dbTypeS cfg.dbTypeT
              (stringUPPER cfg.schemaNameS) tableName cfg.taskMode).isEmpty then
            createWaitSyncMeta a2
              { dbTypeS := cfg.dbTypeS, dbTypeT := cfg.dbTypeT,
                schemaNameS := stringUPPER cfg.schemaNameS,
                tableNameS := stringUPPER tableName, taskMode := cfg.taskMode,
                globalScnS := taskTableDefaultSourceGlobalSCN,
                chunkTotalNums := taskTableDefaultSplitChunkNums }
          else a2) sa
      else st2
    let waitSyncDetails := detailWaitSyncMetaWaitingDefault st3 cfg.dbTypeS cfg.dbTypeT
      (stringUPPER cfg.schemaNameS) cfg.taskMode taskStatusWaiting
      taskTableDefaultSourceGlobalSCN taskTableDefaultSplitChunkNums
    (st3, Except.ok (waitSyncDetails.map (fun w => stringUPPER w.tableNameS)))

/-- Modelled from the spec: the MySQL special-character escape of one raw byte
(`common.SpecialLettersUsingMySQL`): backslash-escape NUL, newline, carriage
return, backslash, the two quote characters and Ctrl-Z; other bytes pass
through. -/
def specialCharEscape (c : Char) : String :=
  if c = Char.ofNat 0 then "\\0"
  else if c = '\n' then "\\n"
  else if c = '\r' then "\\r"
  else if c = '\\' then "\\\\"
  else if c = '\'' then "\\'"
  else if c = '\"' then "\\\""
  else if c = Char.ofNat 26 then "\\Z"
  else String.singleton c

/-- Modelled from the spec: `common.SpecialLettersUsingMySQL` applied to a raw
value. -/
def specialLettersUsingMySQL (s : String) : String :=
  (s.data.map specialCharEscape).foldr (fun a b => a ++ b) ""

/-- Modelled from the spec: `common.StrconvIntBitSize`, the signed decimal
parse of the `int64` branch. -/
def strconvIntBitSize (s : String) : Option Int := parseIntList s.data

/-- Modelled from the spec: a decimal-string parse into an exact rational; it
stands for Go's float parsing (`common.StrconvFloatBitSize`) and for
`decimal.NewFromString` ("parse via arbitrary-precision decimal"). -/
def parseDecimalString (s : String) : Option Rat :=
  match s.data.splitOn '.' with
  | [a] => (parseIntList a).map (fun i => (i : Rat))
  | [a, b] =>
    match parseIntList a, parseNatList b with
    | some i, some f =>
      let fr : Rat := (f : Rat) / ((10 : Rat) ^ b.length)
      some (match s.data with
        | '-' :: _ => (i : Rat) - fr
        | _ => (i : Rat) + fr)
    | _, _ => none
  | _ => none

/-- Modelled from the spec: `common.StrconvFloatBitSize`. -/
def strconvFloatBitSize (s : String) : Option Rat := parseDecimalString s

/-- Modelled from the spec: `common.StrconvRune`, a numeric parse for the
`rune` scan type. -/
def strconvRune (s : String) : Option Int := parseIntList s.data

/-- Modelled from the spec: the string formatting of a parsed non-integral
number ("numeric parse then string formatting"); rendered exactly, with the
characters a Go numeric rendering uses (sign, digits, a separator). -/
def formatGoNumber (q : Rat) : String :=
  Int.repr q.num ++ (if q.den = 1 then "" else "/" ++ Nat.repr q.den)

/-- The driver scan types `Oracle.GetOracleTableRowsData` treats numerically
(src/database/oracle/full.go:172-220). -/
def numericScanTypes : List String :=
  ["int64", "uint64", "float32", "float64", "rune", "godror.Number"]

/-- The per-value codec of `Oracle.GetOracleTableRowsData`
(src/database/oracle/full.go:161-225): a `nil` raw value (`none`) or the empty
string becomes the literal `NULL`; the numeric scan types are parsed and
re-formatted (a parse failure aborts the scan with an error); every other
value is escaped with `SpecialLettersUsingMySQL` and wrapped in single
quotes. -/
def encodeColumnValue (columnType : String) (raw : Option String) : Except String String :=
  match raw with
  | none => Except.ok "NULL"
  | some s =>
    if s = "" then Except.ok "NULL"
    else if columnType = "int64" then
      match strconvIntBitSize s with
      | none => Except.error ("strconv parse int failed: " ++ s)
      | some r => Except.ok (Int.repr r)
    else if columnType = "uint64" then
      match strconvUintBitSize s with
      | none => Except.error ("strconv parse uint failed: " ++ s)
      | some r => Except.ok (Nat.repr r)
    else if columnType = "float32" then
      match strconvFloatBitSize s with
      | none => Except.error ("strconv parse float failed: " ++ s)
      | some r => Except.ok (formatGoNumber r)
    else if columnType = "float64" then
      match strconvFloatBitSize s with
      | none => Except.error ("strconv parse float failed: " ++ s)
      | some r => Except.ok (formatGoNumber r)
    else if columnType = "rune" then
      match strconvRune s with
      | none => Except.error ("strconv parse rune failed: " ++ s)
      | some r => Except.ok (Int.repr r)
    else if columnType = "godror.Number" then
      match parseDecimalString s with
      | none => Except.error ("decimal.NewFromString failed: " ++ s)
      | some r =>
        if r.den = 1 then
          match strconvIntBitSize s with
          | none => Except.error ("strconv parse int failed: " ++ s)
          | some si => Except.ok (Int.repr si)
        else
          match strconvFloatBitSize s with
          | none => Except.error ("strconv parse float failed: " ++ s)
          | some rf => Except.ok (formatGoNumber rf)
    else
      Except.ok ("'" ++ specialLettersUsingMySQL s ++ "'")

/-! ## Theorems -/

/-- C5: the claim expects a `TIMESTAMP(3)` column `ts` to project as
`TO_CHAR(ts,'yyyy-mm-dd hh24:mi:ss.ff3') AS ts`. The guard at
src/module/migrate/o2m/full.go:848 reads `dataScale < 0 && dataScale <= 6` —
unsatisfiable for a non-negative scale — so every positive scale, 3 included,
falls through to the `.ff6` truncation branch: the projection built for the
claim's own example is `.ff6`, not `.ff3`. -/
theorem c5_timestamp_scale_three_projects_ff6 :
    adjustTableSelectColumn [{ columnName := "TS", dataType := "TIMESTAMP", dataScale := "3" }]
      = Except.ok "TO_CHAR(TS,'yyyy-mm-dd hh24:mi:ss.ff6') AS TS" := by
  rfl

/-- The accumulated rows and the remaining rows are exactly what the batch
loop of `GetOracleTableRowsData` flushes, in order. -/
theorem batchRowsLoop_join (sz : Int) :
    ∀ (rows tmp : List String), (batchRowsLoop sz rows tmp).flatten = tmp ++ rows := by
  intro rows
  induction rows with
  | nil =>
    intro tmp
    by_cases h : tmp.length > 0
    · simp [batchRowsLoop, h]
    · simp only [batchRowsLoop, if_neg h]
      simp [List.length_eq_zero.1 (by omega : tmp.length = 0)]
  | cons r rest ih =>
    intro tmp
    simp only [batchRowsLoop]
    split
    · simp [ih]
    · rw [ih]
      simp

/-- Size bounds of the batch loop for a positive batch size: every batch is
non-empty and at most `sz` rows, and every batch but the last is exactly
`sz` rows. -/
theorem batchRowsLoop_sizes (sz : Int) (h1 : 1 ≤ sz) :
    ∀ (rows tmp : List String), (tmp.length : Int) < sz →
      (∀ b ∈ batchRowsLoop sz rows tmp, b ≠ [] ∧ (b.length : Int) ≤ sz)
      ∧ (∀ b ∈ (batchRowsLoop sz rows tmp).dropLast, (b.length : Int) = sz) := by
  intro rows
  induction rows with
  | nil =>
    intro tmp htmp
    constructor
    · intro b hb
      simp only [batchRowsLoop] at hb
      split at hb
      · rename_i hpos
        rcases List.mem_singleton.1 hb with rfl
        exact ⟨List.length_pos.1 hpos, le_of_lt htmp⟩
      · simp at hb
    · intro b hb
      simp only [batchRowsLoop] at hb
      split at hb <;> simp [List.dropLast] at hb
  | cons r rest ih =>
    intro tmp htmp
    simp only [batchRowsLoop]
    split
    · rename_i hflush
      obtain ⟨ihAll, ihDrop⟩ := ih [] (by simpa using h1)
      constructor
      · intro b hb
        rcases List.mem_cons.1 hb with rfl | hb'
        · refine ⟨by simp, le_of_eq hflush⟩
        · exact ihAll b hb'
      · intro b hb
        cases hL : batchRowsLoop sz rest [] with
        | nil => rw [hL] at hb; simp [List.dropLast_single] at hb
        | cons x xs =>
          rw [hL, List.dropLast_cons₂] at hb
          rcases List.mem_cons.1 hb with rfl | hb'
          · exact hflush
          · exact ihDrop b (by rw [hL]; exact hb')
    · rename_i hne
      apply ih
      have : (tmp ++ [r]).length = tmp.length + 1 := by simp
      rw [this] at hne ⊢
      push_cast at hne ⊢
      omega

/-- With a non-positive batch size, no flush ever fires: everything goes into
one batch. -/
theorem batchRowsLoop_nonpos (sz : Int) (hsz : sz ≤ 0) :
    ∀ (rows tmp : List String), tmp ++ rows ≠ [] →
      batchRowsLoop sz rows tmp = [tmp ++ rows] := by
  intro rows
  induction rows with
  | nil =>
    intro tmp hne
    have htmp : tmp ≠ [] := by simpa using hne
    have : tmp.length > 0 := List.length_pos.2 htmp
    simp [batchRowsLoop, this]
  | cons r rest ih =>
    intro tmp _
    simp only [batchRowsLoop]
    have hlen : ((tmp ++ [r]).length : Int) ≠ sz := by
      simp only [List.length_append, List.length_singleton]
      push_cast
      omega
    rw [if_neg hlen]
    rw [ih (tmp ++ [r]) (by simp)]
    simp

/-- C10: `GetOracleTableRowsData` partitions the scanned rows, in order, into
batches; for `insertBatchSize ≥ 1` every batch holds between 1 and
`insertBatchSize` row tuples and every batch but the last exactly
`insertBatchSize`; an empty result set yields no batches; and for
`insertBatchSize ≤ 0` the flush test `len(rowsTMP) == insertBatchSize` can
never fire, so every scanned row lands in one single batch. -/
theorem c10_insert_batch_partition (insertBatchSize : Int) (rows : List String) :
    (1 ≤ insertBatchSize →
      (gatherRowBatches insertBatchSize rows).flatten = rows
      ∧ (∀ b ∈ gatherRowBatches insertBatchSize rows,
          b ≠ [] ∧ (b.length : Int) ≤ insertBatchSize)
      ∧ (∀ b ∈ (gatherRowBatches insertBatchSize rows).dropLast,
          (b.length : Int) = insertBatchSize))
    ∧ (rows = [] → gatherRowBatches insertBatchSize rows = [])
    ∧ (insertBatchSize ≤ 0 → rows ≠ [] →
        gatherRowBatches insertBatchSize rows = [rows]) := by
  refine ⟨fun h1 => ?_, fun hrows => ?_, fun hsz hne => ?_⟩
  · obtain ⟨hall, hdrop⟩ := batchRowsLoop_sizes insertBatchSize h1 rows []
      (by simpa using h1)
    exact ⟨by simpa using batchRowsLoop_join insertBatchSize rows [], hall, hdrop⟩
  · simp [hrows, gatherRowBatches, batchRowsLoop]
  · simpa using batchRowsLoop_nonpos insertBatchSize hsz rows [] (by simpa using hne)

/-- C9: `GetOracleCurrentSnapshotSCN` and `StartOracleChunkCreateTask` read
`res[0]` of their query result without an emptiness check: with at least one
row the access is defined (and whatever happens next is a value, not a missing
row error — no such error branch exists); with zero rows the operation has no
defined result (`none`, the out-of-bounds access) rather than an error
value. -/
theorem c9_res_head_unchecked (res : List (String → String)) (tasks : List String)
    (taskName : String) :
    (res ≠ [] →
      (getOracleCurrentSnapshotSCN none res).isSome
      ∧ (startOracleChunkCreateTaskRes none res tasks taskName).isSome)
    ∧ (res = [] →
      getOracleCurrentSnapshotSCN none res = none
      ∧ startOracleChunkCreateTaskRes none res tasks taskName = none) := by
  constructor
  · intro hne
    cases res with
    | nil => exact absurd rfl hne
    | cons row rest =>
      constructor
      · simp only [getOracleCurrentSnapshotSCN, List.head?]
        cases strconvUintBitSize (row "CURRENT_SCN") <;> simp
      · simp [startOracleChunkCreateTaskRes, List.head?]
  · intro h
    subst h
    exact ⟨rfl, rfl⟩

/-- After `DROP_TASK`, no task of the dropped name remains. -/
theorem dropOracleChunkTask_no_match (tasks : List OraTask) (n : String) :
    (dropOracleChunkTask tasks n).any (fun tk => tk.taskName == n) = false := by
  rw [List.any_eq_false]
  intro tk htk
  rcases List.mem_filter.1 htk with ⟨-, hne⟩
  simp at hne ⊢
  exact hne

/-- Every task surviving `DROP_TASK` carries another name. -/
theorem dropOracleChunkTask_all_ne (tasks : List OraTask) (n : String) :
    (dropOracleChunkTask tasks n).all (fun tk => tk.taskName != n) = true := by
  rw [List.all_eq_true]
  intro tk htk
  exact (List.mem_filter.1 htk).2

/-- C8 counterexample: a worker whose statistics report rows (`stat = 5`) but
whose row-id split yields no chunks ends its successful run with the task
`MARVIN_T1_TASK0` still registered, holding zero chunk rows — the empty-chunk
branch at src/module/migrate/o2m/full.go:682-720 returns before the
`CloseOracleChunkTask` call at line 764, so "always drop on success" fails;
and on the next `StartOracleChunkCreateTask` of that name the `COUNT(1)` over
`user_parallel_execute_chunks` is `"0"`, the pre-drop is skipped, and
`CREATE_TASK` fails on the duplicate name instead of dropping it — so "if a
task with that name already exists it is dropped before a new one is
created" fails too. -/
theorem c8_zero_chunk_task_counterexample :
    (initWaitSyncTableRowIDTaskState
      { dbTypeS := "oracle"
        dbTypeT := "mysql"
        schemaNameS := "MARVIN"
        schemaNameT := "STEVEN"
        taskMode := "FULL" }
      "T1" 0 5 [] []
      = Except.ok [{ taskName := "MARVIN_T1_TASK0", chunks := [] }])
    ∧ (startOracleChunkCreateTask [{ taskName := "MARVIN_T1_TASK0", chunks := [] }]
        "MARVIN_T1_TASK0").toOption = none := by
  exact ⟨rfl, rfl⟩

/-- C8 amended: the pre-drop of `StartOracleChunkCreateTask` is conditioned on
the task's chunk-row count, not on its existence. When the count is non-zero
the existing task is dropped and a fresh empty one created; when the count is
zero but a task of that name exists, nothing is dropped and the creation step
fails; and a successful chunking run whose chunk list is non-empty leaves no
task of its name behind — while the empty-chunk run leaves a zero-chunk task
in place (see the counterexample), which a later start of the same name then
trips over. -/
theorem c8_chunk_task_lifecycle_amended (tasks : List OraTask) (cfg : FullCfg)
    (t : String) (workerID : Nat) (stat : Nat) (chunkRes : List String) :
    (userParallelExecuteChunksCount tasks (chunkTaskName cfg t workerID) ≠ 0 →
      startOracleChunkCreateTask tasks (chunkTaskName cfg t workerID)
        = Except.ok (dropOracleChunkTask tasks (chunkTaskName cfg t workerID)
            ++ [{ taskName := chunkTaskName cfg t workerID, chunks := [] }]))
    ∧ (userParallelExecuteChunksCount tasks (chunkTaskName cfg t workerID) = 0 →
        tasks.any (fun tk => tk.taskName == chunkTaskName cfg t workerID) = true →
        (startOracleChunkCreateTask tasks (chunkTaskName cfg t workerID)).toOption
          = none)
    ∧ (stat ≠ 0 → chunkRes ≠ [] →
        ∀ ts : List OraTask,
          initWaitSyncTableRowIDTaskState cfg t workerID stat chunkRes tasks
            = Except.ok ts →
          ts.all (fun tk => tk.taskName != chunkTaskName cfg t workerID) = true) := by
  refine ⟨?_, ?_, ?_⟩
  · intro hcnt
    simp only [startOracleChunkCreateTask, if_pos hcnt, createOracleTask,
      dropOracleChunkTask_no_match, Bool.false_eq_true, if_false]
  · intro hcnt hany
    have hne : ¬(userParallelExecuteChunksCount tasks (chunkTaskName cfg t workerID)
        ≠ 0) := by omega
    simp only [startOracleChunkCreateTask, if_neg hne, createOracleTask, if_pos hany]
    rfl
  · intro hstat hchunk ts hts
    have hempty : chunkRes.isEmpty = false := by
      cases chunkRes with
      | nil => exact absurd rfl hchunk
      | cons a l => rfl
    simp only [initWaitSyncTableRowIDTaskState, if_neg hstat] at hts
    rcases hstart : startOracleChunkCreateTask tasks (chunkTaskName cfg t workerID)
      with e | tasks1
    · rw [hstart] at hts
      exact absurd hts (by simp)
    · rw [hstart] at hts
      simp only [hempty, Bool.false_eq_true, if_false, Except.ok.injEq] at hts
      rw [← hts]
      exact dropOracleChunkTask_all_ne _ _

/-- Deduplicating a non-empty constant list leaves exactly the constant. -/
theorem dedup_replicate_succ (n : Nat) (x : Nat) :
    (List.replicate (n + 1) x).dedup = [x] := by
  induction n with
  | zero => simp
  | succ n ih =>
    rw [List.replicate_succ, List.dedup_cons_of_mem (by
      exact List.mem_replicate.2 ⟨Nat.succ_ne_zero n, rfl⟩)]
    exact ih

/-- The snapshot ids of the per-chunk FullSync rows are all the captured
`globalSCN`. -/
theorem map_globalScn_of_chunks (cfg : FullCfg) (t target colInfo : String)
    (scn : Nat) (ispart : String) (l : List String) :
    ((l.map (fun cmd => fullSyncMetaOfChunk cfg t target colInfo scn ispart cmd)).map
      (fun f => f.globalScnS)) = List.replicate l.length scn := by
  induction l with
  | nil => rfl
  | cons a l ih =>
    simp only [List.map_cons, List.replicate_succ, fullSyncMetaOfChunk] at ih ⊢
    rw [ih]
    rfl

/-- C2: every FullSync row a chunker worker creates for its table — the
`1 = 1` fallback rows as much as the per-chunk rows — carries the snapshot id
captured once before chunking, so the distinct snapshot ids across the
table's created rows are exactly `[globalSCN]`; the table's WaitSync patch
carries the same snapshot id. -/
theorem c2_snapshot_uniform (cfg : FullCfg) (rule : List (String × String))
    (globalSCN : Nat) (partitionTables : List String) (t : String) (workerID : Nat)
    (colInfo : String) (stat : Nat) (chunkRes : List String) (tasks : List String) :
    (((initWaitSyncTableWorker cfg rule globalSCN partitionTables t workerID colInfo
        stat chunkRes tasks).fullRowsCreated.map (fun f => f.globalScnS)).dedup
      = [globalSCN])
    ∧ (initWaitSyncTableWorker cfg rule globalSCN partitionTables t workerID colInfo
        stat chunkRes tasks).waitPatch.globalScnS = some globalSCN := by
  simp only [initWaitSyncTableWorker]
  by_cases hstat : stat = 0
  · simp [hstat, fullSyncMetaWholeTable]
  · simp only [if_neg hstat]
    cases hc : chunkRes with
    | nil => simp [fullSyncMetaWholeTable]
    | cons cmd rest =>
      have hne : (List.isEmpty (cmd :: rest)) = false := rfl
      simp only [hne, Bool.false_eq_true, if_false]
      refine ⟨?_, by trivial⟩
      rw [map_globalScn_of_chunks]
      exact dedup_replicate_succ rest.length globalSCN

/-- C6: a chunk whose extract, translate or apply stage fails has its own
FullSync row set to FAILED with `info_detail = m.String()` and `error_detail`
the stage's error while the worker itself returns success, so sibling chunks
keep running; the worker propagates an error — cancelling the inner group —
exactly when the FAILED-recording metadata write itself fails, in which case
the row is left unchanged. -/
theorem c6_chunk_error_swallowed (m : FullSyncMeta) (e w : String)
    (t a : Option String) :
    (chunkWorkerStep m (some e) t a none =
      ({ m with
          taskStatus := taskStatusFailed
          infoDetail := fullSyncMetaString m
          errorDetail := e },
       Except.ok ()))
    ∧ (chunkWorkerStep m none (some e) a none =
      ({ m with
          taskStatus := taskStatusFailed
          infoDetail := fullSyncMetaString m
          errorDetail := e },
       Except.ok ()))
    ∧ (chunkWorkerStep m none none (some e) none =
      ({ m with
          taskStatus := taskStatusFailed
          infoDetail := fullSyncMetaString m
          errorDetail := e },
       Except.ok ()))
    ∧ (∃ msg, chunkWorkerStep m (some e) t a (some w) = (m, Except.error msg))
    ∧ (∃ msg, chunkWorkerStep m none (some e) a (some w) = (m, Except.error msg))
    ∧ (∃ msg, chunkWorkerStep m none none (some e) (some w) = (m, Except.error msg))
    ∧ (chunkWorkerStep m none none none none =
      ({ m with taskStatus := taskStatusSuccess }, Except.ok ())) := by
  exact ⟨rfl, rfl, rfl, ⟨_, rfl⟩, ⟨_, rfl⟩, ⟨_, rfl⟩, rfl⟩

/-- Filtering by a predicate after keeping only its complement leaves
nothing. -/
theorem filter_not_filter {α : Type} (l : List α) (p : α → Bool) :
    (l.filter (fun x => !(p x))).filter p = [] := by
  induction l with
  | nil => rfl
  | cons a l ih => by_cases h : p a <;> simp [List.filter_cons, h, ih]

/-- `applyWaitPatch` touches no key field, so the key match is unchanged. -/
theorem waitKeyMatches_applyWaitPatch (p : WaitSyncPatch) (w : WaitSyncMeta)
    (dbS dbT schema table mode : String) :
    waitKeyMatches (applyWaitPatch p w) dbS dbT schema table mode
      = waitKeyMatches w dbS dbT schema table mode := by
  simp [waitKeyMatches, waitSchemaMatches, applyWaitPatch]

/-- A key-matching row of an updated WaitSync table is a patched original
row. -/
theorem update_wait_key_mem (st : MetaState) (dbS dbT schema table mode : String)
    (p : WaitSyncPatch) (w : WaitSyncMeta)
    (hw : w ∈ (updateWaitSyncMeta st dbS dbT schema table mode p).waitRows)
    (hk : waitKeyMatches w dbS dbT schema table mode = true) :
    ∃ w0, w = applyWaitPatch p w0 := by
  rcases List.mem_map.1 hw with ⟨w0, _, rfl⟩
  by_cases h0 : waitKeyMatches w0 dbS dbT schema table mode = true
  · rw [if_pos h0]
    exact ⟨w0, rfl⟩
  · rw [if_neg h0] at hk ⊢
    exact absurd hk h0

/-- C1 amended: when a table's inner chunk group finishes, exactly one of two
postconditions holds. With zero FAILED FullSync rows the table's FullSync
rows are all deleted and its WaitSync row reads SUCCESS with
`chunk_failed = 0` and `chunk_success` equal to the number of WAITING chunks
loaded for this run (`len(fullMetas)` — equal to `chunk_total` only when no
chunk had already reached a terminal status in a prior run). With a positive
count the FullSync rows are preserved and the WaitSync row reads FAILED with
`chunk_failed` the count and `chunk_success = len(fullMetas) − count`. -/
theorem c1_table_completion (st : MetaState) (cfg : FullCfg) (t : String)
    (outcome : FullSyncMeta → Bool) (errDetail : FullSyncMeta → String) :
    (countsErrorFullSyncMeta (chunkRunState st cfg t outcome errDetail) cfg.dbTypeS
        cfg.dbTypeT (stringUPPER cfg.schemaNameS) (stringUPPER t) cfg.taskMode
        taskStatusFailed = 0 →
      ((fullPartSyncTableStep st cfg t outcome errDetail).fullRows.filter
          (fun f => fullTableMatches f cfg.dbTypeS cfg.dbTypeT
            (stringUPPER cfg.schemaNameS) (stringUPPER t) cfg.taskMode) = [])
      ∧ (∀ w ∈ (fullPartSyncTableStep st cfg t outcome errDetail).waitRows,
          waitKeyMatches w cfg.dbTypeS cfg.dbTypeT (stringUPPER cfg.schemaNameS)
            (stringUPPER t) cfg.taskMode = true →
          w.taskStatus = taskStatusSuccess ∧ w.chunkFailedNums = 0
          ∧ w.chunkSuccessNums = ((detailFullSyncMetaByStatus
              (updateWaitSyncMeta st cfg.dbTypeS cfg.dbTypeT cfg.schemaNameS
                (stringUPPER t) cfg.taskMode { taskStatus := some taskStatusRunning })
              cfg.dbTypeS cfg.dbTypeT (stringUPPER cfg.schemaNameS) (stringUPPER t)
              cfg.taskMode taskStatusWaiting).length : Int)))
    ∧ (countsErrorFullSyncMeta (chunkRunState st cfg t outcome errDetail) cfg.dbTypeS
        cfg.dbTypeT (stringUPPER cfg.schemaNameS) (stringUPPER t) cfg.taskMode
        taskStatusFailed ≠ 0 →
      ((fullPartSyncTableStep st cfg t outcome errDetail).fullRows
        = (chunkRunState st cfg t outcome errDetail).fullRows)
      ∧ (∀ w ∈ (fullPartSyncTableStep st cfg t outcome errDetail).waitRows,
          waitKeyMatches w cfg.dbTypeS cfg.dbTypeT (stringUPPER cfg.schemaNameS)
            (stringUPPER t) cfg.taskMode = true →
          w.taskStatus = taskStatusFailed
          ∧ w.chunkFailedNums = countsErrorFullSyncMeta
              (chunkRunState st cfg t outcome errDetail) cfg.dbTypeS cfg.dbTypeT
              (stringUPPER cfg.schemaNameS) (stringUPPER t) cfg.taskMode taskStatusFailed
          ∧ w.chunkSuccessNums = ((detailFullSyncMetaByStatus
              (updateWaitSyncMeta st cfg.dbTypeS cfg.dbTypeT cfg.schemaNameS
                (stringUPPER t) cfg.taskMode { taskStatus := some taskStatusRunning })
              cfg.dbTypeS cfg.dbTypeT (stringUPPER cfg.schemaNameS) (stringUPPER t)
              cfg.taskMode taskStatusWaiting).length : Int)
            - countsErrorFullSyncMeta (chunkRunState st cfg t outcome errDetail)
              cfg.dbTypeS cfg.dbTypeT (stringUPPER cfg.schemaNameS) (stringUPPER t)
              cfg.taskMode taskStatusFailed)) := by
  constructor
  · intro hzero
    rw [fullPartSyncTableStep]
    simp only [if_pos hzero]
    constructor
    · exact filter_not_filter _ _
    · intro w hw hk
      rcases update_wait_key_mem _ _ _ _ _ _ _ w hw hk with ⟨w0, rfl⟩
      exact ⟨rfl, rfl, rfl⟩
  · intro hpos
    rw [fullPartSyncTableStep]
    simp only [if_neg hpos]
    constructor
    · rfl
    · intro w hw hk
      rcases update_wait_key_mem _ _ _ _ _ _ _ w hw hk with ⟨w0, rfl⟩
      exact ⟨rfl, rfl, rfl⟩

/-- C1 counterexample: a resumed table with `chunk_total = 2` of which one
chunk already reached SUCCESS in a prior run. The new run loads only the one
WAITING chunk, it succeeds, the FAILED count is zero — and the SUCCESS branch
records `chunk_success = 1`, not `chunk_total = 2` as the claim states. -/
theorem c1_resumed_success_count_counterexample :
    ((fullPartSyncTableStep
      { waitRows := [
          { dbTypeS := "oracle"
            dbTypeT := "mysql"
            schemaNameS := "MARVIN"
            tableNameS := "T1"
            taskMode := "FULL"
            taskStatus := "RUNNING"
            globalScnS := 100
            chunkTotalNums := 2
            chunkSuccessNums := 0
            chunkFailedNums := 0
            isPartition := "NO" }]
        fullRows := [
          { dbTypeS := "oracle"
            dbTypeT := "mysql"
            schemaNameS := "MARVIN"
            tableNameS := "T1"
            schemaNameT := "STEVEN"
            tableNameT := "T1"
            globalScnS := 100
            columnDetailS := "ID"
            chunkDetailS := "ROWID BETWEEN 'AAA' AND 'BBB'"
            taskMode := "FULL"
            taskStatus := "SUCCESS"
            isPartition := "NO" },
          { dbTypeS := "oracle"
            dbTypeT := "mysql"
            schemaNameS := "MARVIN"
            tableNameS := "T1"
            schemaNameT := "STEVEN"
            tableNameT := "T1"
            globalScnS := 100
            columnDetailS := "ID"
            chunkDetailS := "ROWID BETWEEN 'BBB' AND 'CCC'"
            taskMode := "FULL"
            taskStatus := "WAITING"
            isPartition := "NO" }]
        truncated := [] }
      { dbTypeS := "oracle"
        dbTypeT := "mysql"
        schemaNameS := "MARVIN"
        schemaNameT := "STEVEN"
        taskMode := "FULL" }
      "T1" (fun _ => true) (fun _ => "")).waitRows.map
        (fun w => (w.taskStatus, w.chunkSuccessNums, w.chunkTotalNums))
      = [("SUCCESS", 1, 2)])
    ∧ (1 : Int) ≠ 2 := by
  exact ⟨by rfl, by decide⟩

/-- Deleting rows that a predicate can never select leaves that predicate's
selection unchanged. -/
theorem filter_filter_of_imp {α : Type} (l : List α) (p q : α → Bool)
    (h : ∀ x, p x = true → q x = true) :
    (l.filter q).filter p = l.filter p := by
  induction l with
  | nil => rfl
  | cons a l ih =>
    by_cases hq : q a = true
    · by_cases hp : p a = true <;> simp [List.filter_cons, hq, hp, ih]
    · have hp : ¬(p a = true) := fun hpa => hq (h a hpa)
      simp [List.filter_cons, hq, hp, ih]

/-- The pre-gate cleanup deletes only SUCCESS rows, so the FAILED count the
gate reads is the FAILED count of the initial state. -/
theorem countsErr_after_success_delete (st : MetaState) (dbS dbT schema mode : String)
    (tables : List String) :
    countsErrWaitSyncMetaBySchema
      (deleteWaitSyncMetaSuccessTables st dbS dbT schema mode taskStatusSuccess tables)
      dbS dbT schema mode taskStatusFailed
    = countsErrWaitSyncMetaBySchema st dbS dbT schema mode taskStatusFailed := by
  simp only [countsErrWaitSyncMetaBySchema, deleteWaitSyncMetaSuccessTables]
  rw [filter_filter_of_imp]
  intro w hw
  rcases Bool.and_eq_true_iff.1 hw with ⟨-, hstatus⟩
  have : w.taskStatus = taskStatusFailed := by simpa using hstatus
  simp [this, taskStatusFailed, taskStatusSuccess]

/-- C3 amended: with a FAILED WaitSync row present for the schema/task-mode at
start-up, `Migrate.Full` aborts at the gate with the remediation error: no
FullSync row changes, no destination table is truncated, no WaitSync row is
created or updated — but the pre-gate cleanup of stale SUCCESS rows has
already run, so the surviving WaitSync rows are a sublist of the initial ones
rather than exactly the initial ones. -/
theorem c3_gate_abort_amended (st : MetaState) (cfg : FullCfg)
    (exporters : List String) (enableCheckpoint : Bool)
    (h : ((st.waitRows.filter (fun w => waitSchemaMatches w cfg.dbTypeS cfg.dbTypeT
        (stringUPPER cfg.schemaNameS) cfg.taskMode
        && w.taskStatus == taskStatusFailed)).length : Int) ≠ 0) :
    ((fullPrelude st cfg exporters enableCheckpoint).2.toOption = none)
    ∧ (fullPrelude st cfg exporters enableCheckpoint).1.fullRows = st.fullRows
    ∧ (fullPrelude st cfg exporters enableCheckpoint).1.truncated = st.truncated
    ∧ (fullPrelude st cfg exporters enableCheckpoint).1.waitRows.Sublist st.waitRows := by
  have hcnt : countsErrWaitSyncMetaBySchema
      (if (filterDifferenceStringItems (detailWaitSyncMetaSuccessTables st cfg.dbTypeS
          cfg.dbTypeT (stringUPPER cfg.schemaNameS) cfg.taskMode taskStatusSuccess)
          exporters).length > 0 then
        deleteWaitSyncMetaSuccessTables st cfg.dbTypeS cfg.dbTypeT
          (stringUPPER cfg.schemaNameS) cfg.taskMode taskStatusSuccess
          (filterDifferenceStringItems (detailWaitSyncMetaSuccessTables st cfg.dbTypeS
            cfg.dbTypeT (stringUPPER cfg.schemaNameS) cfg.taskMode taskStatusSuccess)
            exporters)
      else st)
      cfg.dbTypeS cfg.dbTypeT (stringUPPER cfg.schemaNameS) cfg.taskMode
      taskStatusFailed
      = countsErrWaitSyncMetaBySchema st cfg.dbTypeS cfg.dbTypeT
        (stringUPPER cfg.schemaNameS) cfg.taskMode taskStatusFailed := by
    split
    · exact countsErr_after_success_delete st _ _ _ _ _
    · rfl
  have hpos : countsErrWaitSyncMetaBySchema st cfg.dbTypeS cfg.dbTypeT
      (stringUPPER cfg.schemaNameS) cfg.taskMode taskStatusFailed > 0 := by
    simp only [countsErrWaitSyncMetaBySchema]
    omega
  simp only [fullPrelude, hcnt, if_pos hpos]
  refine ⟨rfl, ?_, ?_, ?_⟩ <;> split
  · rfl
  · rfl
  · rfl
  · rfl
  · exact List.filter_sublist _
  · exact List.Sublist.refl _

/-- C3 counterexample: a schema with one FAILED WaitSync row and one stale
SUCCESS row of a table no longer configured. The run does abort with the
remediation error — but only after deleting the stale SUCCESS metadata row,
so "no metadata rows are created, updated, or deleted" before the abort is
false: of the two initial rows only one survives. -/
theorem c3_predelete_counterexample :
    ((fullPrelude
      { waitRows := [
          { dbTypeS := "oracle"
            dbTypeT := "mysql"
            schemaNameS := "MARVIN"
            tableNameS := "A"
            taskMode := "FULL"
            taskStatus := "FAILED"
            globalScnS := 100
            chunkTotalNums := 3
            chunkSuccessNums := 1
            chunkFailedNums := 2
            isPartition := "NO" },
          { dbTypeS := "oracle"
            dbTypeT := "mysql"
            schemaNameS := "MARVIN"
            tableNameS := "C"
            taskMode := "FULL"
            taskStatus := "SUCCESS"
            globalScnS := 100
            chunkTotalNums := 1
            chunkSuccessNums := 1
            chunkFailedNums := 0
            isPartition := "NO" }]
        fullRows := []
        truncated := [] }
      { dbTypeS := "oracle"
        dbTypeT := "mysql"
        schemaNameS := "MARVIN"
        schemaNameT := "STEVEN"
        taskMode := "FULL" }
      ["A"] true).2.toOption = none)
    ∧ ((fullPrelude
      { waitRows := [
          { dbTypeS := "oracle"
            dbTypeT := "mysql"
            schemaNameS := "MARVIN"
            tableNameS := "A"
            taskMode := "FULL"
            taskStatus := "FAILED"
            globalScnS := 100
            chunkTotalNums := 3
            chunkSuccessNums := 1
            chunkFailedNums := 2
            isPartition := "NO" },
          { dbTypeS := "oracle"
            dbTypeT := "mysql"
            schemaNameS := "MARVIN"
            tableNameS := "C"
            taskMode := "FULL"
            taskStatus := "SUCCESS"
            globalScnS := 100
            chunkTotalNums := 1
            chunkSuccessNums := 1
            chunkFailedNums := 0
            isPartition := "NO" }]
        fullRows := []
        truncated := [] }
      { dbTypeS := "oracle"
        dbTypeT := "mysql"
        schemaNameS := "MARVIN"
        schemaNameT := "STEVEN"
        taskMode := "FULL" }
      ["A"] true).1.waitRows.map (fun w => w.tableNameS) = ["A"]) := by
  exact ⟨rfl, rfl⟩

/-- Concrete instance of the gate-abort postcondition: one FAILED WaitSync
row, checkpointing on, a single configured table. -/
theorem c3_gate_abort_amended_witness :
    (let st : MetaState :=
      { waitRows := [
          { dbTypeS := "oracle"
            dbTypeT := "mysql"
            schemaNameS := "MARVIN"
            tableNameS := "A"
            taskMode := "FULL"
            taskStatus := "FAILED"
            globalScnS := 100
            chunkTotalNums := 3
            chunkSuccessNums := 1
            chunkFailedNums := 2
            isPartition := "NO" }]
        fullRows := []
        truncated := [] }
     let cfg : FullCfg :=
      { dbTypeS := "oracle"
        dbTypeT := "mysql"
        schemaNameS := "MARVIN"
        schemaNameT := "STEVEN"
        taskMode := "FULL" }
     ((fullPrelude st cfg ["A"] true).2.toOption = none)
     ∧ (fullPrelude st cfg ["A"] true).1.fullRows = st.fullRows
     ∧ (fullPrelude st cfg ["A"] true).1.truncated = st.truncated
     ∧ (fullPrelude st cfg ["A"] true).1.waitRows.Sublist st.waitRows) :=
  c3_gate_abort_amended _ _ ["A"] true (by decide)

/-- C4: the checkpoint-off wipe does delete the schema's FullSync rows,
delete each exporter's WaitSync row and truncate its destination table — but
the struct literal that re-inserts the fresh WaitSync row
(src/module/migrate/o2m/full.go:203-211) omits `TaskStatus`, unlike the
parallel creation at lines 146-155 which sets WAITING. The re-inserted row
carries the zero value `""`, so the subsequent WAITING/default query returns
no tables: for a fresh metadata store with exporter `T1` and
`enable_checkpoint = false`, the final state holds one WaitSync row for `T1`
with empty status, the destination `T1` was truncated, and the run's
`waitSyncTables` list is empty — `T1` is never migrated. -/
theorem c4_checkpoint_off_missing_waiting_status :
    ((fullPrelude { waitRows := [], fullRows := [], truncated := [] }
      { dbTypeS := "oracle"
        dbTypeT := "mysql"
        schemaNameS := "MARVIN"
        schemaNameT := "STEVEN"
        taskMode := "FULL" }
      ["T1"] false).1.waitRows.map (fun w => (w.tableNameS, w.taskStatus))
      = [("T1", "")])
    ∧ ((fullPrelude { waitRows := [], fullRows := [], truncated := [] }
      { dbTypeS := "oracle"
        dbTypeT := "mysql"
        schemaNameS := "MARVIN"
        schemaNameT := "STEVEN"
        taskMode := "FULL" }
      ["T1"] false).1.truncated = [("STEVEN", "T1")])
    ∧ ((fullPrelude { waitRows := [], fullRows := [], truncated := [] }
      { dbTypeS := "oracle"
        dbTypeT := "mysql"
        schemaNameS := "MARVIN"
        schemaNameT := "STEVEN"
        taskMode := "FULL" }
      ["T1"] false).2 = Except.ok [])
    ∧ "" ≠ taskStatusWaiting := by
  exact ⟨rfl, rfl, rfl, by decide⟩

/-- `Nat.digitChar` never yields `N` or a quote character. -/
theorem digitChar_ne_N_quote (m : Nat) :
    Nat.digitChar m ≠ 'N' ∧ Nat.digitChar m ≠ '\'' := by
  match m with
  | 0 | 1 | 2 | 3 | 4 | 5 | 6 | 7 | 8 | 9 | 10 | 11 | 12 | 13 | 14 | 15 =>
    exact ⟨by decide, by decide⟩
  | n + 16 =>
    unfold Nat.digitChar
    rw [if_neg (by omega : ¬(n + 16 = 0)), if_neg (by omega : ¬(n + 16 = 1)),
      if_neg (by omega : ¬(n + 16 = 2)), if_neg (by omega : ¬(n + 16 = 3)),
      if_neg (by omega : ¬(n + 16 = 4)), if_neg (by omega : ¬(n + 16 = 5)),
      if_neg (by omega : ¬(n + 16 = 6)), if_neg (by omega : ¬(n + 16 = 7)),
      if_neg (by omega : ¬(n + 16 = 8)), if_neg (by omega : ¬(n + 16 = 9)),
      if_neg (by omega : ¬(n + 16 = 0xa)), if_neg (by omega : ¬(n + 16 = 0xb)),
      if_neg (by omega : ¬(n + 16 = 0xc)), if_neg (by omega : ¬(n + 16 = 0xd)),
      if_neg (by omega : ¬(n + 16 = 0xe)), if_neg (by omega : ¬(n + 16 = 0xf))]
    exact ⟨by decide, by decide⟩

/-- Every character `Nat.toDigitsCore` emits is a digit character or comes
from the accumulator. -/
theorem toDigitsCore_chars (b : Nat) :
    ∀ (fuel n : Nat) (ds : List Char), ∀ c ∈ Nat.toDigitsCore b fuel n ds,
      (∃ m, c = Nat.digitChar m) ∨ c ∈ ds := by
  intro fuel
  induction fuel with
  | zero =>
    intro n ds c hc
    right
    simpa [Nat.toDigitsCore] using hc
  | succ fuel ih =>
    intro n ds c hc
    simp only [Nat.toDigitsCore] at hc
    split at hc
    · rcases List.mem_cons.1 hc with rfl | h
      · exact Or.inl ⟨n % b, rfl⟩
      · exact Or.inr h
    · rcases ih (n / b) (Nat.digitChar (n % b) :: ds) c hc with h | h
      · exact Or.inl h
      · rcases List.mem_cons.1 h with rfl | h2
        · exact Or.inl ⟨n % b, rfl⟩
        · exact Or.inr h2

/-- Characters of `Nat.repr` are digit characters. -/
theorem natRepr_chars (n : Nat) :
    ∀ c ∈ (Nat.repr n).data, ∃ m, c = Nat.digitChar m := by
  intro c hc
  have hdata : (Nat.repr n).data = Nat.toDigitsCore 10 (n + 1) n [] := rfl
  rw [hdata] at hc
  rcases toDigitsCore_chars 10 (n + 1) n [] c hc with h | h
  · exact h
  · simp at h

/-- Characters of `Int.repr` are a sign or digit characters. -/
theorem intRepr_chars (i : Int) :
    ∀ c ∈ (Int.repr i).data, c = '-' ∨ ∃ m, c = Nat.digitChar m := by
  intro c hc
  cases i with
  | ofNat m => exact Or.inr (natRepr_chars m c hc)
  | negSucc m =>
    have hdata : (Int.repr (Int.negSucc m)).data = '-' :: (Nat.repr (m + 1)).data := rfl
    rw [hdata] at hc
    rcases List.mem_cons.1 hc with rfl | h
    · exact Or.inl rfl
    · exact Or.inr (natRepr_chars (m + 1) c h)

/-- A string whose characters all avoid `c` differs from any string
containing `c`. -/
theorem ne_of_char_avoided {s t : String} (c : Char) (hc : c ∈ t.data)
    (h : ∀ x ∈ s.data, x ≠ c) : s ≠ t := by
  intro he
  exact h c (by rw [he]; exact hc) rfl

/-- An integer rendering is never the literal `NULL`. -/
theorem intRepr_ne_NULL (i : Int) : Int.repr i ≠ "NULL" :=
  ne_of_char_avoided 'N' (by decide) (fun x hx => by
    rcases intRepr_chars i x hx with rfl | ⟨m, rfl⟩
    · decide
    · exact (digitChar_ne_N_quote m).1)

/-- An integer rendering is never the empty quoted literal. -/
theorem intRepr_ne_quotes (i : Int) : Int.repr i ≠ "''" :=
  ne_of_char_avoided '\'' (by decide) (fun x hx => by
    rcases intRepr_chars i x hx with rfl | ⟨m, rfl⟩
    · decide
    · exact (digitChar_ne_N_quote m).2)

/-- A natural rendering is never the literal `NULL`. -/
theorem natRepr_ne_NULL (n : Nat) : Nat.repr n ≠ "NULL" :=
  ne_of_char_avoided 'N' (by decide) (fun x hx => by
    rcases natRepr_chars n x hx with ⟨m, rfl⟩
    exact (digitChar_ne_N_quote m).1)

/-- A natural rendering is never the empty quoted literal. -/
theorem natRepr_ne_quotes (n : Nat) : Nat.repr n ≠ "''" :=
  ne_of_char_avoided '\'' (by decide) (fun x hx => by
    rcases natRepr_chars n x hx with ⟨m, rfl⟩
    exact (digitChar_ne_N_quote m).2)

/-- Characters of the numeric formatting are a sign, a separator or digit
characters. -/
theorem formatGoNumber_chars (q : Rat) :
    ∀ c ∈ (formatGoNumber q).data, c = '-' ∨ c = '/' ∨ ∃ m, c = Nat.digitChar m := by
  intro c hc
  simp only [formatGoNumber, String.data_append] at hc
  rcases List.mem_append.1 hc with h | h
  · rcases intRepr_chars q.num c h with h1 | h1
    · exact Or.inl h1
    · exact Or.inr (Or.inr h1)
  · split at h
    · simp at h
    · simp only [String.data_append] at h
      rcases List.mem_append.1 h with h2 | h2
      · rcases List.mem_singleton.1 h2 with rfl
        exact Or.inr (Or.inl rfl)
      · exact Or.inr (Or.inr (natRepr_chars q.den c h2))

/-- The numeric formatting is never the literal `NULL`. -/
theorem formatGoNumber_ne_NULL (q : Rat) : formatGoNumber q ≠ "NULL" :=
  ne_of_char_avoided 'N' (by decide) (fun x hx => by
    rcases formatGoNumber_chars q x hx with rfl | rfl | ⟨m, rfl⟩
    · decide
    · decide
    · exact (digitChar_ne_N_quote m).1)

/-- The numeric formatting is never the empty quoted literal. -/
theorem formatGoNumber_ne_quotes (q : Rat) : formatGoNumber q ≠ "''" :=
  ne_of_char_avoided '\'' (by decide) (fun x hx => by
    rcases formatGoNumber_chars q x hx with rfl | rfl | ⟨m, rfl⟩
    · decide
    · decide
    · exact (digitChar_ne_N_quote m).2)

/-- The escape of one byte is never empty. -/
theorem specialCharEscape_data_ne_nil (c : Char) : (specialCharEscape c).data ≠ [] := by
  unfold specialCharEscape
  repeat' split
  all_goals simp [String.singleton, String.push]

/-- The escape of a non-empty raw value is never empty. -/
theorem specialLetters_data_ne_nil (s : String) (h : s.data ≠ []) :
    (specialLettersUsingMySQL s).data ≠ [] := by
  unfold specialLettersUsingMySQL
  cases hd : s.data with
  | nil => exact absurd hd h
  | cons c cs =>
    simp only [List.map_cons, List.foldr_cons, String.data_append]
    intro hnil
    rcases List.append_eq_nil.1 hnil with ⟨h1, -⟩
    exact specialCharEscape_data_ne_nil c h1

/-- A quoted escaped value is never the literal `NULL`. -/
theorem quoted_ne_NULL (s : String) :
    ("'" ++ specialLettersUsingMySQL s ++ "'") ≠ "NULL" := by
  intro h
  have hd := congrArg (fun t : String => t.data.head?) h
  simp only [String.data_append, List.singleton_append, List.cons_append,
    List.head?] at hd
  exact absurd hd (by decide)

/-- A quoted escape of a non-empty raw value is never the empty quoted
literal `''`. -/
theorem quoted_ne_quotes (s : String) (hs : s.data ≠ []) :
    ("'" ++ specialLettersUsingMySQL s ++ "'") ≠ "''" := by
  intro h
  have hlen := congrArg (fun t : String => t.data.length) h
  simp only [String.data_append, List.length_append, List.length_singleton,
    List.length_cons, List.length_nil] at hlen
  have : (specialLettersUsingMySQL s).data.length = 0 := by omega
  exact specialLetters_data_ne_nil s hs (List.length_eq_zero.1 this)

/-- A non-empty raw value never encodes to the literal `NULL`, whatever the
scan type. -/
theorem encode_some_ne_NULL (columnType s : String) (hs : ¬(s = "")) :
    encodeColumnValue columnType (some s) ≠ Except.ok "NULL" := by
  simp only [encodeColumnValue, if_neg hs]
  split_ifs
  · rcases hp : strconvIntBitSize s with _ | r
    · simp [hp]
    · simp only [hp, ne_eq, Except.ok.injEq]
      exact intRepr_ne_NULL r
  · rcases hp : strconvUintBitSize s with _ | r
    · simp [hp]
    · simp only [hp, ne_eq, Except.ok.injEq]
      exact natRepr_ne_NULL r
  · rcases hp : strconvFloatBitSize s with _ | r
    · simp [hp]
    · simp only [hp, ne_eq, Except.ok.injEq]
      exact formatGoNumber_ne_NULL r
  · rcases hp : strconvFloatBitSize s with _ | r
    · simp [hp]
    · simp only [hp, ne_eq, Except.ok.injEq]
      exact formatGoNumber_ne_NULL r
  · rcases hp : strconvRune s with _ | r
    · simp [hp]
    · simp only [hp, ne_eq, Except.ok.injEq]
      exact intRepr_ne_NULL r
  · rcases hp : parseDecimalString s with _ | q
    · simp [hp]
    · simp only [hp]
      by_cases hq : q.den = 1
      · simp only [if_pos hq]
        rcases hip : strconvIntBitSize s with _ | si
        · simp [hip]
        · simp only [hip, ne_eq, Except.ok.injEq]
          exact intRepr_ne_NULL si
      · simp only [if_neg hq]
        rcases hfp : strconvFloatBitSize s with _ | rf
        · simp [hfp]
        · simp only [hfp, ne_eq, Except.ok.injEq]
          exact formatGoNumber_ne_NULL rf
  · simp only [ne_eq, Except.ok.injEq]
    exact quoted_ne_NULL s

/-- No value ever encodes to the empty quoted literal `''`. -/
theorem encode_ne_quotes (columnType : String) (raw : Option String) :
    encodeColumnValue columnType raw ≠ Except.ok "''" := by
  cases raw with
  | none =>
    simp only [encodeColumnValue, ne_eq, Except.ok.injEq]
    decide
  | some s =>
    by_cases hs : s = ""
    · subst hs
      have hnull : encodeColumnValue columnType (some "") = Except.ok "NULL" := by
        simp [encodeColumnValue]
      rw [hnull]
      simp only [ne_eq, Except.ok.injEq]
      decide
    · have hsd : s.data ≠ [] := fun hd => hs (String.ext hd)
      simp only [encodeColumnValue, if_neg hs]
      split_ifs
      · rcases hp : strconvIntBitSize s with _ | r
        · simp [hp]
        · simp only [hp, ne_eq, Except.ok.injEq]
          exact intRepr_ne_quotes r
      · rcases hp : strconvUintBitSize s with _ | r
        · simp [hp]
        · simp only [hp, ne_eq, Except.ok.injEq]
          exact natRepr_ne_quotes r
      · rcases hp : strconvFloatBitSize s with _ | r
        · simp [hp]
        · simp only [hp, ne_eq, Except.ok.injEq]
          exact formatGoNumber_ne_quotes r
      · rcases hp : strconvFloatBitSize s with _ | r
        · simp [hp]
        · simp only [hp, ne_eq, Except.ok.injEq]
          exact formatGoNumber_ne_quotes r
      · rcases hp : strconvRune s with _ | r
        · simp [hp]
        · simp only [hp, ne_eq, Except.ok.injEq]
          exact intRepr_ne_quotes r
      · rcases hp : parseDecimalString s with _ | q
        · simp [hp]
        · simp only [hp]
          by_cases hq : q.den = 1
          · simp only [if_pos hq]
            rcases hip : strconvIntBitSize s with _ | si
            · simp [hip]
            · simp only [hip, ne_eq, Except.ok.injEq]
              exact intRepr_ne_quotes si
          · simp only [if_neg hq]
            rcases hfp : strconvFloatBitSize s with _ | rf
            · simp [hfp]
            · simp only [hfp, ne_eq, Except.ok.injEq]
              exact formatGoNumber_ne_quotes rf
      · simp only [ne_eq, Except.ok.injEq]
        exact quoted_ne_quotes s hsd

/-- C7: the codec of `GetOracleTableRowsData` emits the literal `NULL`
exactly when the driver-reported raw value is `nil` or the empty string —
every numeric branch renders a number (or aborts with a parse error) and the
text branch single-quotes a non-empty escape, so nothing else ever yields
`NULL`; every non-empty raw value of a non-numeric scan type is emitted as
the single-quoted MySQL escape; and the empty quoted literal `''` is never
emitted at all. -/
theorem c7_codec_null_exactly (columnType : String) (raw : Option String) :
    (encodeColumnValue columnType raw = Except.ok "NULL" ↔ raw = none ∨ raw = some "")
    ∧ (∀ s : String, raw = some s → s ≠ "" → columnType ∉ numericScanTypes →
        encodeColumnValue columnType raw
          = Except.ok ("'" ++ specialLettersUsingMySQL s ++ "'"))
    ∧ encodeColumnValue columnType raw ≠ Except.ok "''" := by
  refine ⟨⟨?_, ?_⟩, ?_, encode_ne_quotes columnType raw⟩
  · intro h
    cases raw with
    | none => exact Or.inl rfl
    | some s =>
      by_cases hs : s = ""
      · exact Or.inr (by rw [hs])
      · exact absurd h (encode_some_ne_NULL columnType s hs)
  · rintro (rfl | rfl)
    · rfl
    · rfl
  · rintro s rfl hs hmem
    have h1 : ¬(columnType = "int64") := fun he => hmem (by rw [he]; decide)
    have h2 : ¬(columnType = "uint64") := fun he => hmem (by rw [he]; decide)
    have h3 : ¬(columnType = "float32") := fun he => hmem (by rw [he]; decide)
    have h4 : ¬(columnType = "float64") := fun he => hmem (by rw [he]; decide)
    have h5 : ¬(columnType = "rune") := fun he => hmem (by rw [he]; decide)
    have h6 : ¬(columnType = "godror.Number") := fun he => hmem (by rw [he]; decide)
    simp only [encodeColumnValue, if_neg hs, if_neg h1, if_neg h2, if_neg h3,
      if_neg h4, if_neg h5, if_neg h6]

end TransferDB
